import Mathlib

/-!
Verification of the incus-osd network-configuration engine (`systemd` package,
`api_system.go`) and the REST system-action handler, via a shallow embedding
of the Go source in Lean 4.

Conventions of the embedding:
* Go strings are Lean `String`s; Go `int` is Lean `Int`; Go slices are `List`s.
* Fallible operations return `Except String α` (Go's `(value, error)` pairs).
* External commands and other side-effecting operations are modelled by an
  oracle structure `World`; observable side effects are recorded in an
  explicit `Effect` trace.
* Time is modelled in milliseconds as a `Nat` that advances only at
  `time.Sleep` calls (each sleep in the source is 500 ms); `time.Now()`
  reads the current value.
-/

namespace IncusOS

/-- `api.SystemNetworkRoute`: destination prefix and gateway token. -/
structure SystemNetworkRoute where
  To : String
  Via : String
deriving Repr, DecidableEq

/-- `api.SystemNetworkInterface`: a physical interface declaration. -/
structure SystemNetworkInterface where
  Name : String
  Hwaddr : String
  MTU : Int
  Addresses : List String
  Routes : List SystemNetworkRoute
  VLAN : Int
  VLANTags : List Int
  LLDP : Bool
  RequiredForOnline : String
deriving Repr, DecidableEq

/-- `api.SystemNetworkBond`: a bond declaration. -/
structure SystemNetworkBond where
  Name : String
  Mode : String
  Hwaddr : String
  MTU : Int
  Members : List String
  Addresses : List String
  Routes : List SystemNetworkRoute
  VLAN : Int
  VLANTags : List Int
  LLDP : Bool
  RequiredForOnline : String
deriving Repr, DecidableEq

/-- `api.SystemNetworkVLAN`: a VLAN declaration. -/
structure SystemNetworkVLAN where
  Name : String
  ID : Int
  Parent : String
  MTU : Int
  Addresses : List String
  Routes : List SystemNetworkRoute
  RequiredForOnline : String
deriving Repr, DecidableEq

/-- `api.SystemNetworkDNS`. -/
structure SystemNetworkDNS where
  Hostname : String
  Domain : String
  SearchDomains : List String
  Nameservers : List String
deriving Repr, DecidableEq

/-- `api.SystemNetworkNTP`. -/
structure SystemNetworkNTP where
  Timeservers : List String
deriving Repr, DecidableEq

/-- `api.SystemNetworkProxy`: opaque to this engine; it is only passed to
`UpdateEnvironment` wholesale. -/
structure SystemNetworkProxy where
  raw : String
deriving Repr, DecidableEq

/-- `api.SystemNetworkConfig` (a Go pointer to it is `Option` at use sites). -/
structure SystemNetworkConfig where
  Interfaces : List SystemNetworkInterface
  Bonds : List SystemNetworkBond
  VLANs : List SystemNetworkVLAN
  DNS : Option SystemNetworkDNS
  NTP : Option SystemNetworkNTP
  Proxy : Option SystemNetworkProxy
deriving Repr, DecidableEq

instance : Inhabited SystemNetworkConfig :=
  ⟨⟨[], [], [], none, none, none⟩⟩

/-- `networkdConfigFile`: a filename and its contents. -/
structure networkdConfigFile where
  Name : String
  Contents : String
deriving Repr, DecidableEq

/-! ## Pure generator functions -/

/-- The loop body of `processAddresses`: folds over the address tokens
accumulating the literal `Address=` lines and the `hasDHCP4`, `hasDHCP6`,
`acceptIPv6RA` flags, exactly as the Go `for`/`switch`. -/
def processAddressesLoop (acc : String × Bool × Bool × Bool) :
    List String → String × Bool × Bool × Bool
  | [] => acc
  | addr :: rest =>
    let ret := acc.1
    let hasDHCP4 := acc.2.1
    let hasDHCP6 := acc.2.2.1
    let acceptIPv6RA := acc.2.2.2
    if addr = "dhcp4" then
      processAddressesLoop (ret, true, hasDHCP6, acceptIPv6RA) rest
    else if addr = "dhcp6" then
      processAddressesLoop (ret, hasDHCP4, true, acceptIPv6RA) rest
    else if addr = "slaac" then
      processAddressesLoop (ret, hasDHCP4, hasDHCP6, true) rest
    else
      processAddressesLoop (ret ++ "Address=" ++ addr ++ "\n", hasDHCP4, hasDHCP6, acceptIPv6RA) rest

/-- `processAddresses` from `api_system.go`: renders the addressing part of a
`[Network]` section. -/
def processAddresses (addresses : List String) : String :=
  let ret :=
    if addresses.length ≠ 0 then
      "LinkLocalAddressing=ipv6\n"
    else
      "LinkLocalAddressing=no\n" ++ "ConfigureWithoutCarrier=yes\n"
  match processAddressesLoop (ret, false, false, false) addresses with
  | (ret, hasDHCP4, hasDHCP6, acceptIPv6RA) =>
    let ret := ret ++ (if acceptIPv6RA then "IPv6AcceptRA=true\n" else "IPv6AcceptRA=false\n")
    if hasDHCP4 && hasDHCP6 then ret ++ "DHCP=yes\n"
    else if hasDHCP4 then ret ++ "DHCP=ipv4\n"
    else if hasDHCP6 then ret ++ "DHCP=ipv6\n"
    else ret

/-- The link-local clause at the head of `processAddresses` output. -/
def linkLocalClause (addresses : List String) : String :=
  if addresses.length ≠ 0 then
    "LinkLocalAddressing=ipv6\n"
  else
    "LinkLocalAddressing=no\n" ++ "ConfigureWithoutCarrier=yes\n"

/-- The `Address=` lines emitted by the `processAddresses` loop for
non-keyword tokens, in order. -/
def literalAddressLines : List String → String
  | [] => ""
  | addr :: rest =>
    (if addr = "dhcp4" ∨ addr = "dhcp6" ∨ addr = "slaac" then ""
     else "Address=" ++ addr ++ "\n") ++ literalAddressLines rest

/-- The `IPv6AcceptRA` line of `processAddresses` output. -/
def ipv6RAClause (addresses : List String) : String :=
  if "slaac" ∈ addresses then "IPv6AcceptRA=true\n" else "IPv6AcceptRA=false\n"

/-- The DHCP directive of `processAddresses` output, phrased by token
membership as in the specification. -/
def dhcpClause (addresses : List String) : String :=
  if "dhcp4" ∈ addresses then
    if "dhcp6" ∈ addresses then "DHCP=yes\n" else "DHCP=ipv4\n"
  else if "dhcp6" ∈ addresses then "DHCP=ipv6\n"
  else ""

/-- `generateLinkSectionContents` from `api_system.go`. -/
def generateLinkSectionContents (addresses : List String) (requiredForOnline : String) : String :=
  if addresses.length = 0 ∨ requiredForOnline = "no" then
    "RequiredForOnline=no"
  else
    let requiredForOnline := if requiredForOnline = "" then "any" else requiredForOnline
    "RequiredForOnline=yes\nRequiredFamilyForOnline=" ++ requiredForOnline

/-- `processRoutes` from `api_system.go`. -/
def processRoutes (routes : List SystemNetworkRoute) : String :=
  routes.foldl
    (fun ret route =>
      let ret := ret ++ "\n[Route]\n"
      let ret :=
        if route.Via = "dhcp4" then ret ++ "Gateway=_dhcp4\n"
        else if route.Via = "slaac" then ret ++ "Gateway=_ipv6ra\n"
        else ret ++ "Gateway=" ++ route.Via ++ "\n"
      ret ++ "Destination=" ++ route.To ++ "\n")
    ""

/-- `generateNetworkSectionContents` from `api_system.go`. -/
def generateNetworkSectionContents (name : String) (vlans : List SystemNetworkVLAN)
    (dns : Option SystemNetworkDNS) (ntp : Option SystemNetworkNTP) : String :=
  let ret :=
    vlans.foldl (fun ret v => if v.Parent = name then ret ++ "VLAN=" ++ v.Name ++ "\n" else ret) ""
  let ret :=
    match dns with
    | none => ret
    | some dns =>
      let ret :=
        if dns.SearchDomains.length > 0 then
          ret ++ "Domains=" ++ String.intercalate " " dns.SearchDomains ++ "\n"
        else ret
      dns.Nameservers.foldl (fun ret ns => ret ++ "DNS=" ++ ns ++ "\n") ret
  match ntp with
  | none => ret
  | some ntp => ntp.Timeservers.foldl (fun ret ts => ret ++ "NTP=" ++ ts ++ "\n") ret

/-- `generateTimesyncContents` from `api_system.go`. -/
def generateTimesyncContents (ntp : SystemNetworkNTP) : String :=
  if ntp.Timeservers.length = 0 then ""
  else "[Time]\nFallbackNTP=" ++ String.intercalate " " ntp.Timeservers ++ "\n"

/-- `slices.Compact` on a list whose runs of equal elements are collapsed to a
single element, tracking the previously kept element. -/
def compactTail (prev : Int) : List Int → List Int
  | [] => []
  | b :: rest => if b = prev then compactTail prev rest else b :: compactTail b rest

/-- `slices.Compact`: collapse consecutive runs of equal elements. -/
def compact : List Int → List Int
  | [] => []
  | a :: rest => a :: compactTail a rest

/-- The raw VLAN tag collection of `generateBridgeVLANContents`, before
sorting and deduplication: the device's own primary tag (if non-zero), its
additional trunk tags, and the IDs of declared VLANs whose `Parent` is this
bridge, in source order. -/
def bridgeVLANTagsRaw (bridgeName : String) (specificVLAN : Int)
    (additionalVLANTags : List Int) (vlans : List SystemNetworkVLAN) : List Int :=
  (if specificVLAN ≠ 0 then [specificVLAN] else []) ++ additionalVLANTags ++
    vlans.filterMap (fun vlan => if vlan.Parent = bridgeName then some vlan.ID else none)

/-- The sorted, duplicate-free VLAN tag list of `generateBridgeVLANContents`
(`slices.Sort` then `slices.Compact`). -/
def bridgeVLANTags (bridgeName : String) (specificVLAN : Int)
    (additionalVLANTags : List Int) (vlans : List SystemNetworkVLAN) : List Int :=
  compact (List.insertionSort (· ≤ ·)
    (bridgeVLANTagsRaw bridgeName specificVLAN additionalVLANTags vlans))

/-- `generateBridgeVLANContents` from `api_system.go`. -/
def generateBridgeVLANContents (bridgeName : String) (specificVLAN : Int)
    (additionalVLANTags : List Int) (vlans : List SystemNetworkVLAN) : String :=
  let vlanTags := bridgeVLANTags bridgeName specificVLAN additionalVLANTags vlans
  if vlanTags.length > 0 then
    let ret :=
      if specificVLAN ≠ 0 then
        "\n[BridgeVLAN]\n" ++ "PVID=" ++ toString specificVLAN ++ "\n" ++
          "EgressUntagged=" ++ toString specificVLAN ++ "\n"
      else ""
    vlanTags.foldl (fun ret tag => ret ++ "\n[BridgeVLAN]\n" ++ "VLAN=" ++ toString tag ++ "\n") ret
  else ""

/-- The required-for-online clause as the specification states it: not
required when no address is configured or the policy is explicitly `"no"`;
required with family `any` when the policy is unset; otherwise required
with the explicit family value. -/
def requiredForOnlineClause (addresses : List String) (policy : String) : String :=
  if addresses = [] ∨ policy = "no" then "RequiredForOnline=no"
  else if policy = "" then "RequiredForOnline=yes\nRequiredFamilyForOnline=any"
  else "RequiredForOnline=yes\nRequiredFamilyForOnline=" ++ policy

/-- The PVID/EgressUntagged block emitted ahead of the tag list when the
device has its own primary VLAN tag. -/
def pvidClause (specificVLAN : Int) : String :=
  if specificVLAN ≠ 0 then
    "\n[BridgeVLAN]\n" ++ "PVID=" ++ toString specificVLAN ++ "\n" ++
      "EgressUntagged=" ++ toString specificVLAN ++ "\n"
  else ""

/-- The `[BridgeVLAN]` tag blocks for a tag list, in list order. -/
def bridgeVLANBlocks : List Int → String
  | [] => ""
  | t :: rest => "\n[BridgeVLAN]\n" ++ "VLAN=" ++ toString t ++ "\n" ++ bridgeVLANBlocks rest

/-- `strings.ToLower(strings.ReplaceAll(hwaddr, ":", ""))`. -/
def strippedHwaddr (hwaddr : String) : String :=
  (hwaddr.replace ":" "").toLower

/-- `generateLinkFileContents` from `api_system.go`. -/
def generateLinkFileContents (networkCfg : SystemNetworkConfig) : List networkdConfigFile :=
  networkCfg.Interfaces.map
    (fun i =>
      { Name := "00-en" ++ strippedHwaddr i.Hwaddr ++ ".link"
        Contents := "[Match]\nPermanentMACAddress=" ++ i.Hwaddr ++
          "\n\n[Link]\nMACAddressPolicy=random\nNamePolicy=\nName=en" ++
          strippedHwaddr i.Hwaddr ++ "\n" }) ++
  networkCfg.Bonds.flatMap
    (fun b =>
      b.Members.map
        (fun member =>
          { Name := "01-en" ++ strippedHwaddr member ++ ".link"
            Contents := "[Match]\nPermanentMACAddress=" ++ member ++
              "\n\n[Link]\nNamePolicy=\nName=en" ++ strippedHwaddr member ++ "\n" }))

/-- `MTUBytes=` clause: empty when the MTU is zero. -/
def mtuClause (mtu : Int) : String :=
  if mtu ≠ 0 then "MTUBytes=" ++ toString mtu else ""

/-- `generateNetdevFileContents` from `api_system.go`. -/
def generateNetdevFileContents (networkCfg : SystemNetworkConfig) : List networkdConfigFile :=
  networkCfg.Interfaces.flatMap
    (fun i =>
      [{ Name := "10-br" ++ i.Name ++ ".netdev"
         Contents := "[NetDev]\nName=br" ++ i.Name ++ "\nKind=bridge\n" ++ mtuClause i.MTU ++
           "\n\n[Bridge]\nVLANFiltering=true\n" },
       { Name := "10-" ++ i.Name ++ ".netdev"
         Contents := "[NetDev]\nName=" ++ i.Name ++ "\nKind=veth\nMACAddress=" ++ i.Hwaddr ++
           "\n" ++ mtuClause i.MTU ++ "\n\n[Peer]\nName=vt" ++ i.Name ++ "\n" }]) ++
  networkCfg.Bonds.flatMap
    (fun b =>
      -- `bondMacAddr := b.Hwaddr; if "" then b.Members[0]` (validation
      -- guarantees a non-empty member list; `headD` models the indexing).
      let bondMacAddr := if b.Hwaddr = "" then b.Members.headD "" else b.Hwaddr
      [{ Name := "11-bn" ++ b.Name ++ ".netdev"
         Contents := "[NetDev]\nName=bn" ++ b.Name ++ "\nKind=bond\n" ++ mtuClause b.MTU ++
           "\n\n[Bond]\nMode=" ++ b.Mode ++ "\n" },
       { Name := "11-br" ++ b.Name ++ ".netdev"
         Contents := "[NetDev]\nName=br" ++ b.Name ++ "\nKind=bridge\n" ++ mtuClause b.MTU ++
           "\n\n[Bridge]\nVLANFiltering=true\n" },
       { Name := "11-" ++ b.Name ++ ".netdev"
         Contents := "[NetDev]\nName=" ++ b.Name ++ "\nKind=veth\nMACAddress=" ++ bondMacAddr ++
           "\n" ++ mtuClause b.MTU ++ "\n\n[Peer]\nName=vt" ++ b.Name ++ "\n" }]) ++
  networkCfg.VLANs.map
    (fun v =>
      { Name := "12-" ++ v.Name ++ ".netdev"
        Contents := "[NetDev]\nName=" ++ v.Name ++ "\nKind=vlan\n" ++ mtuClause v.MTU ++
          "\n\n[VLAN]\nId=" ++ toString v.ID ++ "\n" })

/-- `strconv.FormatBool`. -/
def formatBool (b : Bool) : String :=
  if b then "true" else "false"

/-- `generateNetworkFileContents` from `api_system.go`. -/
def generateNetworkFileContents (networkCfg : SystemNetworkConfig) : List networkdConfigFile :=
  networkCfg.Interfaces.flatMap
    (fun i =>
      [{ Name := "20-" ++ i.Name ++ ".network"
         Contents := "[Match]\nName=" ++ i.Name ++ "\n\n[Link]\n" ++
           generateLinkSectionContents i.Addresses i.RequiredForOnline ++
           "\n\n[DHCP]\nClientIdentifier=mac\nRouteMetric=100\nUseMTU=true\n\n[Network]\n" ++
           generateNetworkSectionContents i.Name networkCfg.VLANs networkCfg.DNS networkCfg.NTP ++
           processAddresses i.Addresses ++
           (if i.Routes.length > 0 then processRoutes i.Routes else "") },
       { Name := "20-vt" ++ i.Name ++ ".network"
         Contents := "[Match]\nName=vt" ++ i.Name ++ "\n\n[Network]\nBridge=br" ++ i.Name ++
           "\n" ++ generateBridgeVLANContents i.Name i.VLAN i.VLANTags networkCfg.VLANs },
       { Name := "20-en" ++ strippedHwaddr i.Hwaddr ++ ".network"
         Contents := "[Match]\nName=en" ++ strippedHwaddr i.Hwaddr ++ "\n\n[Network]\nLLDP=" ++
           formatBool i.LLDP ++ "\nEmitLLDP=" ++ formatBool i.LLDP ++ "\nBridge=br" ++ i.Name ++
           "\n" ++ generateBridgeVLANContents i.Name i.VLAN i.VLANTags networkCfg.VLANs },
       { Name := "20-br" ++ i.Name ++ ".network"
         Contents := "[Match]\nName=br" ++ i.Name ++
           "\n\n[Network]\nLinkLocalAddressing=no\nConfigureWithoutCarrier=yes\n" }]) ++
  networkCfg.Bonds.flatMap
    (fun b =>
      [{ Name := "21-" ++ b.Name ++ ".network"
         Contents := "[Match]\nName=" ++ b.Name ++ "\n\n[Link]\n" ++
           generateLinkSectionContents b.Addresses b.RequiredForOnline ++
           "\n\n[DHCP]\nClientIdentifier=mac\nRouteMetric=100\nUseMTU=true\n\n[Network]\n" ++
           generateNetworkSectionContents b.Name networkCfg.VLANs networkCfg.DNS networkCfg.NTP ++
           processAddresses b.Addresses ++
           (if b.Routes.length > 0 then processRoutes b.Routes else "") },
       { Name := "21-vt" ++ b.Name ++ ".network"
         Contents := "[Match]\nName=vt" ++ b.Name ++ "\n\n[Network]\nBridge=br" ++ b.Name ++
           "\n" ++ generateBridgeVLANContents b.Name b.VLAN b.VLANTags networkCfg.VLANs },
       { Name := "21-bn" ++ b.Name ++ ".network"
         Contents := "[Match]\nName=bn" ++ b.Name ++
           "\n\n[Network]\nLinkLocalAddressing=no\nConfigureWithoutCarrier=yes\nBridge=br" ++
           b.Name ++ "\n" ++ generateBridgeVLANContents b.Name b.VLAN b.VLANTags networkCfg.VLANs },
       { Name := "21-br" ++ b.Name ++ ".network"
         Contents := "[Match]\nName=br" ++ b.Name ++
           "\n\n[Network]\nLinkLocalAddressing=no\nConfigureWithoutCarrier=yes\n" }] ++
      b.Members.enum.map
        (fun p =>
          { Name := "21-bn" ++ b.Name ++ "-dev" ++ toString p.1 ++ ".network"
            Contents := "[Match]\nName=en" ++ strippedHwaddr p.2 ++ "\n\n[Network]\nLLDP=" ++
              formatBool b.LLDP ++ "\nEmitLLDP=" ++ formatBool b.LLDP ++ "\nBond=bn" ++
              b.Name ++ "\n" })) ++
  networkCfg.VLANs.map
    (fun v =>
      { Name := "22-" ++ v.Name ++ ".network"
        Contents := "[Match]\nName=" ++ v.Name ++ "\n\n[Link]\n" ++
          generateLinkSectionContents v.Addresses v.RequiredForOnline ++
          "\n\n[DHCP]\nClientIdentifier=mac\nRouteMetric=100\nUseMTU=true\n\n[Network]\n" ++
          generateNetworkSectionContents v.Name [] networkCfg.DNS networkCfg.NTP ++
          processAddresses v.Addresses ++
          (if v.Routes.length > 0 then processRoutes v.Routes else "") })

/-! ## Effectful operations: oracle world, effect traces, and time

External commands and OS operations are modelled by the `World` oracle.
Command oracles take the current time (ms) so their results can change
between polling passes. Time advances only at `time.Sleep(500ms)` calls. -/

/-- Whether the first character list is a prefix of the second. -/
def charsPrefixOf : List Char → List Char → Bool
  | [], _ => true
  | _ :: _, [] => false
  | a :: as, b :: bs => a = b && charsPrefixOf as bs

/-- Whether the first character list occurs contiguously in the second. -/
def charsInfixOf (pat : List Char) : List Char → Bool
  | [] => charsPrefixOf pat []
  | c :: rest => charsPrefixOf pat (c :: rest) || charsInfixOf pat rest

/-- `strings.Contains`. -/
def strContains (s pat : String) : Bool :=
  charsInfixOf pat.toList s.toList

/-- Oracle for every external command and OS side effect the engine invokes.
`Except.error` is a Go non-nil error. `ipAddrShow` returns the address
strings captured by the Go regexp `inet6? (.+)/\d+ ` from the command's
output (the regexp match itself is the only part modelled at this level). -/
structure World where
  networkctlStatus : Nat → String → Except String String
  ipAddrShow : Nat → String → Except String (List String)
  udevadmTrigger : Nat → Except String String
  udevadmSettle : Nat → Except String String
  journalctlRenamed : Nat → Except String String
  setHostnameResult : String → Except String Unit
  updateEnvironmentResult : Except String Unit
  removeAllResult : Except String Unit
  mkdirResult : Except String Unit
  writeFileResult : String → Except String Unit
  restartUnitResult : String → Except String Unit

/-- Observable side effects of the apply pipeline, in invocation order. -/
inductive Effect where
  | setHostname (hostname : String)
  | updateEnvironment
  | removeAll (path : String)
  | mkdir (path : String)
  | writeFile (name : String) (contents : String)
  | removeFile (path : String)
  | restartUnit (unit : String)
deriving Repr, DecidableEq

/-- `SystemdNetworkConfigPath` ("clears any existing configuration from
/run/systemd/network/", per the source comment). -/
def SystemdNetworkConfigPath : String := "/run/systemd/network"

/-- Modelled from the spec: the `SystemdTimesyncConfigFile` constant is not
under `src/`; the spec only says it is the single time-sync artifact. Its
exact value is irrelevant to the claims. -/
def SystemdTimesyncConfigFile : String := "/run/systemd/timesyncd.conf"

/-- The `isOnline` closure of `waitForNetworkOnline`: a `networkctl status`
failure is treated as (not online, required-for-online). -/
def isOnline (w : World) (t : Nat) (name : String) : Bool × Bool :=
  match w.networkctlStatus t name with
  | .error _ => (false, true)
  | .ok output =>
    (strContains output "Online state: online", strContains output "Required For Online: yes")

/-- The `hasAtLeastOneConfiguredIP` closure of `waitForNetworkOnline`: an
`ip address show` failure is treated as having no address; link-local
addresses are not counted. -/
def hasAtLeastOneConfiguredIP (w : World) (t : Nat) (name : String) : Bool :=
  match w.ipAddrShow t name with
  | .error _ => false
  | .ok addrs =>
    0 < (addrs.filter (fun a => !(a.startsWith "169.254." || a.startsWith "fe80:"))).length

/-- The devices `waitForNetworkOnline` checks: every interface, bond, and
VLAN with at least one configured address, in that order. -/
def devicesToCheck (networkCfg : SystemNetworkConfig) : List String :=
  networkCfg.Interfaces.filterMap
    (fun i => if i.Addresses.length = 0 then none else some i.Name) ++
  networkCfg.Bonds.filterMap
    (fun b => if b.Addresses.length = 0 then none else some b.Name) ++
  networkCfg.VLANs.filterMap
    (fun v => if v.Addresses.length = 0 then none else some v.Name)

/-- One device's convergence check inside a polling pass: a device counts
as converged when it is not required-for-online, or is online with at least
one non-link-local address. -/
def deviceConverged (w : World) (t : Nat) (name : String) : Bool :=
  let p := isOnline w t name
  if !p.2 then true else p.1 && hasAtLeastOneConfiguredIP w t name

/-- One polling pass of `waitForNetworkOnline` (`allDevicesOnline`). -/
def onlinePass (w : World) (networkCfg : SystemNetworkConfig) (t : Nat) : Bool :=
  (devicesToCheck networkCfg).all (deviceConverged w t)

/-- The error of the online-wait deadline. -/
def timeoutNetworkMsg : String := "timed out waiting for network to come online"

/-- The error of the rename-wait deadline. -/
def timeoutRenameMsg : String := "timed out waiting for udev to rename interface(s)"

/-- The polling loop of `waitForNetworkOnline`: check the deadline, run one
pass, sleep 500 ms and retry. Returns the result together with the time at
which the function returns. -/
def waitForNetworkOnlineLoop (w : World) (networkCfg : SystemNetworkConfig)
    (endTime : Nat) (now : Nat) : Except String Unit × Nat :=
  if endTime < now then (.error timeoutNetworkMsg, now)
  else if onlinePass w networkCfg now then (.ok (), now)
  else waitForNetworkOnlineLoop w networkCfg endTime (now + 500)
termination_by endTime + 1 - now
decreasing_by simp_wf; omega

/-- `waitForNetworkOnline` from `api_system.go`: the deadline is sampled on
entry (`endTime := time.Now().Add(timeout)`). -/
def waitForNetworkOnline (w : World) (networkCfg : SystemNetworkConfig)
    (now timeout : Nat) : Except String Unit × Nat :=
  waitForNetworkOnlineLoop w networkCfg (now + timeout) now

/-- The polling loop of `waitForUdevInterfaceRename`: `udevadm trigger` and
`udevadm settle` failures propagate; a `journalctl` failure only means the
rename evidence was not found yet, so the loop sleeps 500 ms and retries. -/
def waitForUdevInterfaceRenameLoop (w : World) (endTime : Nat) (now : Nat) :
    Except String Unit × Nat :=
  if endTime < now then (.error timeoutRenameMsg, now)
  else
    match w.udevadmTrigger now with
    | .error e => (.error e, now)
    | .ok _ =>
      match w.udevadmSettle now with
      | .error e => (.error e, now)
      | .ok _ =>
        match w.journalctlRenamed now with
        | .ok _ => (.ok (), now)
        | .error _ => waitForUdevInterfaceRenameLoop w endTime (now + 500)
termination_by endTime + 1 - now
decreasing_by simp_wf; omega

/-- `waitForUdevInterfaceRename` from `api_system.go`. -/
def waitForUdevInterfaceRename (w : World) (now timeout : Nat) : Except String Unit × Nat :=
  waitForUdevInterfaceRenameLoop w (now + timeout) now

/-! ## Validation

The bodies of `validateInterfaces`, `validateBonds`, and `validateVLANs`
are not under `src/`; they are modelled from the spec (§4.1). -/

/-- Modelled from the spec: `validateInterfaces` is not under `src/`;
§4.1 requires no duplicate device names. -/
def validateInterfaces (interfaces : List SystemNetworkInterface)
    (vlans : List SystemNetworkVLAN) : Except String Unit :=
  if (interfaces.map (fun i => i.Name) ++ vlans.map (fun v => v.Name)).Nodup then .ok ()
  else .error "duplicate device name"

/-- Modelled from the spec: `validateBonds` is not under `src/`; §3 requires
a non-empty member list for every bond. -/
def validateBonds (bonds : List SystemNetworkBond)
    (vlans : List SystemNetworkVLAN) : Except String Unit :=
  if bonds.all (fun b => !b.Members.isEmpty) &&
      (bonds.map (fun b => b.Name) ++ vlans.map (fun v => v.Name)).Nodup then .ok ()
  else .error "invalid bond"

/-- Modelled from the spec: `validateVLANs` is not under `src/`; §4.1
requires every VLAN's `Parent` to name an existing interface or bond. -/
def validateVLANs (networkCfg : SystemNetworkConfig) : Except String Unit :=
  if networkCfg.VLANs.all (fun v =>
      (networkCfg.Interfaces.map (fun i => i.Name) ++
        networkCfg.Bonds.map (fun b => b.Name)).contains v.Parent) then .ok ()
  else .error "VLAN parent does not name an existing interface or bond"

/-- `ValidateNetworkConfiguration` from `api_system.go`: the nil check is
from the source; the three per-kind validators are modelled from the spec. -/
def ValidateNetworkConfiguration : Option SystemNetworkConfig → Except String Unit
  | none => .error "no network configuration provided"
  | some networkCfg =>
    match validateInterfaces networkCfg.Interfaces networkCfg.VLANs with
    | .error e => .error e
    | .ok _ =>
      match validateBonds networkCfg.Bonds networkCfg.VLANs with
      | .error e => .error e
      | .ok _ => validateVLANs networkCfg

/-! ## The apply pipeline -/

/-- The file-writing loop of `generateNetworkConfiguration`: writes each
artifact, stopping at the first failure. -/
def writeConfigFiles (w : World) : List networkdConfigFile → Except String Unit × List Effect
  | [] => (.ok (), [])
  | f :: rest =>
    match w.writeFileResult f.Name with
    | .error e => (.error e, [.writeFile f.Name f.Contents])
    | .ok _ =>
      let r := writeConfigFiles w rest
      (r.1, .writeFile f.Name f.Contents :: r.2)

/-- `generateNetworkConfiguration` from `api_system.go`: wipe and recreate
the configuration directory, write the `.link`, `.netdev`, and `.network`
artifacts, then write or remove the time-sync artifact. -/
def generateNetworkConfiguration (w : World) (networkCfg : SystemNetworkConfig) :
    Except String Unit × List Effect :=
  match w.removeAllResult with
  | .error e => (.error e, [.removeAll SystemdNetworkConfigPath])
  | .ok _ =>
    match w.mkdirResult with
    | .error e => (.error e, [.removeAll SystemdNetworkConfigPath, .mkdir SystemdNetworkConfigPath])
    | .ok _ =>
      let t0 : List Effect := [.removeAll SystemdNetworkConfigPath, .mkdir SystemdNetworkConfigPath]
      let links := writeConfigFiles w (generateLinkFileContents networkCfg)
      match links.1 with
      | .error e => (.error e, t0 ++ links.2)
      | .ok _ =>
        let netdevs := writeConfigFiles w (generateNetdevFileContents networkCfg)
        match netdevs.1 with
        | .error e => (.error e, t0 ++ links.2 ++ netdevs.2)
        | .ok _ =>
          let networks := writeConfigFiles w (generateNetworkFileContents networkCfg)
          let t1 := t0 ++ links.2 ++ netdevs.2 ++ networks.2
          match networks.1 with
          | .error e => (.error e, t1)
          | .ok _ =>
            match networkCfg.NTP with
            | some ntp =>
              let ntpCfg := generateTimesyncContents ntp
              if ntpCfg ≠ "" then
                match w.writeFileResult SystemdTimesyncConfigFile with
                | .error e =>
                  (.error e, t1 ++ [.writeFile SystemdTimesyncConfigFile ntpCfg])
                | .ok _ =>
                  (.ok (), t1 ++ [.writeFile SystemdTimesyncConfigFile ntpCfg])
              else
                (.ok (), t1 ++ [.removeFile SystemdTimesyncConfigFile])
            | none =>
              (.ok (), t1 ++ [.removeFile SystemdTimesyncConfigFile])

/-- The hostname computation at the head of `ApplyNetworkConfiguration`:
DNS hostname, with the domain appended when set; empty when unset. -/
def hostnameFromDNS (dns : Option SystemNetworkDNS) : String :=
  match dns with
  | some d =>
    if d.Hostname ≠ "" then
      if d.Domain ≠ "" then d.Hostname ++ "." ++ d.Domain else d.Hostname
    else ""
  | none => ""

/-- `ApplyNetworkConfiguration` from `api_system.go`: validate, set the
hostname, update the proxy environment, regenerate the configuration
directory, wait for udev renames (fixed 5 s budget), restart
`systemd-networkd` and `systemd-timesyncd`, then wait for the network to
come online within the caller-supplied timeout. Returns the result, the
effect trace, and the time at which the call returns. -/
def ApplyNetworkConfiguration (w : World) (networkCfg : Option SystemNetworkConfig)
    (now timeout : Nat) : Except String Unit × List Effect × Nat :=
  match ValidateNetworkConfiguration networkCfg with
  | .error e => (.error e, [], now)
  | .ok _ =>
    -- After successful validation the Go code dereferences the pointer;
    -- validation rejected `none`, so `getD default` is never the default.
    let cfg := networkCfg.getD default
    let hostname := hostnameFromDNS cfg.DNS
    match w.setHostnameResult hostname with
    | .error e => (.error e, [.setHostname hostname], now)
    | .ok _ =>
      match w.updateEnvironmentResult with
      | .error e => (.error e, [.setHostname hostname, .updateEnvironment], now)
      | .ok _ =>
        let gen := generateNetworkConfiguration w cfg
        let t0 : List Effect := [.setHostname hostname, .updateEnvironment] ++ gen.2
        match gen.1 with
        | .error e => (.error e, t0, now)
        | .ok _ =>
          let rename := waitForUdevInterfaceRename w now 5000
          match rename.1 with
          | .error e => (.error e, t0, rename.2)
          | .ok _ =>
            match w.restartUnitResult "systemd-networkd" with
            | .error e => (.error e, t0 ++ [.restartUnit "systemd-networkd"], rename.2)
            | .ok _ =>
              match w.restartUnitResult "systemd-timesyncd" with
              | .error e =>
                (.error e,
                  t0 ++ [.restartUnit "systemd-networkd", .restartUnit "systemd-timesyncd"],
                  rename.2)
              | .ok _ =>
                let online := waitForNetworkOnline w cfg rename.2 timeout
                (online.1,
                  t0 ++ [.restartUnit "systemd-networkd", .restartUnit "systemd-timesyncd"],
                  online.2)

/-! ## The REST system-action handler (`apiSystem` in package `rest`) -/

/-- The rendered response of the handler. -/
inductive RestResponse where
  | notImplemented
  | internalError (err : String)
  | badRequest (err : String)
  | emptySync
deriving Repr, DecidableEq

/-- Observable actions of the handler: decoding the request body, and
closing the shutdown/reboot trigger channels. -/
inductive RestEffect where
  | decodeBody
  | closeTriggerShutdown
  | closeTriggerReboot
deriving Repr, DecidableEq

/-- `apiSystem` from `api_system.go` (package `rest`). The request body is
modelled by its JSON decode outcome: an error or the decoded action string. -/
def apiSystem (method : String) (body : Except String String) :
    RestResponse × List RestEffect :=
  if method ≠ "PUT" then (.notImplemented, [])
  else
    match body with
    | .error e => (.internalError e, [.decodeBody])
    | .ok action =>
      if action = "shutdown" ∨ action = "poweroff" then
        (.emptySync, [.decodeBody, .closeTriggerShutdown])
      else if action = "reboot" then
        (.emptySync, [.decodeBody, .closeTriggerReboot])
      else
        (.badRequest ("invalid action \"" ++ action ++ "\""), [.decodeBody])

/-! ## Concrete worlds and configurations used by witnesses -/

/-- A world in which every external command and OS operation succeeds;
`networkctl` reports every device online, required, with an address. -/
def okWorld : World where
  networkctlStatus := fun _ _ => .ok "Online state: online\nRequired For Online: yes"
  ipAddrShow := fun _ _ => .ok ["10.0.0.2"]
  udevadmTrigger := fun _ => .ok ""
  udevadmSettle := fun _ => .ok ""
  journalctlRenamed := fun _ => .ok "kernel: enaabbccddeeff: renamed from eth0"
  setHostnameResult := fun _ => .ok ()
  updateEnvironmentResult := .ok ()
  removeAllResult := .ok ()
  mkdirResult := .ok ()
  writeFileResult := fun _ => .ok ()
  restartUnitResult := fun _ => .ok ()

/-- Like `okWorld`, but every `networkctl status` and `ip address show`
invocation fails. -/
def failingStatusWorld : World :=
  { okWorld with
    networkctlStatus := fun _ _ => .error "exit status 1"
    ipAddrShow := fun _ _ => .error "exit status 1" }

/-- Like `okWorld`, but `networkctl` always reports the device as required
for online and never online. -/
def neverOnlineWorld : World :=
  { okWorld with
    networkctlStatus := fun _ _ => .ok "Online state: offline\nRequired For Online: yes" }

/-- Like `okWorld`, but the kernel log never shows rename evidence. -/
def renameNeverWorld : World :=
  { okWorld with journalctlRenamed := fun _ => .error "no match" }

/-- A single interface with one DHCPv4 address token. -/
def eth0 : SystemNetworkInterface where
  Name := "eth0"
  Hwaddr := "aa:bb:cc:dd:ee:ff"
  MTU := 0
  Addresses := ["dhcp4"]
  Routes := []
  VLAN := 0
  VLANTags := []
  LLDP := false
  RequiredForOnline := ""

/-- A configuration with the single interface `eth0`. -/
def cfg0 : SystemNetworkConfig where
  Interfaces := [eth0]
  Bonds := []
  VLANs := []
  DNS := none
  NTP := none
  Proxy := none

/-- A bond with two members and no explicit hardware address. -/
def bond0 : SystemNetworkBond where
  Name := "bond0"
  Mode := "802.3ad"
  Hwaddr := ""
  MTU := 0
  Members := ["aa:bb:cc:dd:ee:01", "aa:bb:cc:dd:ee:02"]
  Addresses := ["dhcp4"]
  Routes := []
  VLAN := 0
  VLANTags := []
  LLDP := false
  RequiredForOnline := ""

/-- A configuration with the single bond `bond0`. -/
def cfgBond : SystemNetworkConfig where
  Interfaces := []
  Bonds := [bond0]
  VLANs := []
  DNS := none
  NTP := none
  Proxy := none

/-! ## Helper lemmas -/

theorem processAddressesLoop_spec (l : List String) (ret : String) (h4 h6 ra : Bool) :
    processAddressesLoop (ret, h4, h6, ra) l =
      (ret ++ literalAddressLines l,
        h4 || decide ("dhcp4" ∈ l), h6 || decide ("dhcp6" ∈ l), ra || decide ("slaac" ∈ l)) := by
  induction l generalizing ret h4 h6 ra with
  | nil => simp [processAddressesLoop, literalAddressLines]
  | cons a rest ih =>
    by_cases h1 : a = "dhcp4"
    · subst h1
      simp [processAddressesLoop, literalAddressLines, ih]
    · by_cases h2 : a = "dhcp6"
      · subst h2
        simp [processAddressesLoop, literalAddressLines, ih]
      · by_cases h3 : a = "slaac"
        · subst h3
          simp [processAddressesLoop, literalAddressLines, ih]
        · simp [processAddressesLoop, literalAddressLines, ih, h1, h2, h3,
            Ne.symm h1, Ne.symm h2, Ne.symm h3, String.append_assoc]

theorem processAddresses_decomp (addresses : List String) :
    processAddresses addresses =
      linkLocalClause addresses ++ literalAddressLines addresses ++
        ipv6RAClause addresses ++ dhcpClause addresses := by
  unfold processAddresses linkLocalClause ipv6RAClause dhcpClause
  simp only [processAddressesLoop_spec]
  by_cases h4 : "dhcp4" ∈ addresses <;> by_cases h6 : "dhcp6" ∈ addresses <;>
    by_cases hra : "slaac" ∈ addresses <;>
      simp [h4, h6, hra, String.append_assoc]

theorem mem_of_mem_compactTail {x : Int} : ∀ {prev : Int} {l : List Int},
    x ∈ compactTail prev l → x ∈ l := by
  intro prev l
  induction l generalizing prev with
  | nil => simp [compactTail]
  | cons b rest ih =>
    intro h
    by_cases hb : b = prev
    · rw [compactTail, if_pos hb] at h
      exact List.mem_cons_of_mem _ (ih h)
    · rw [compactTail, if_neg hb] at h
      rcases List.mem_cons.mp h with rfl | h
      · exact List.mem_cons_self _ _
      · exact List.mem_cons_of_mem _ (ih h)

theorem mem_compactTail_of_mem {x : Int} : ∀ (prev : Int) {l : List Int},
    x ∈ l → x = prev ∨ x ∈ compactTail prev l := by
  intro prev l
  induction l generalizing prev with
  | nil => simp
  | cons b rest ih =>
    intro h
    by_cases hb : b = prev
    · rw [compactTail, if_pos hb]
      rcases List.mem_cons.mp h with rfl | h
      · exact Or.inl hb
      · exact ih prev h
    · rw [compactTail, if_neg hb]
      rcases List.mem_cons.mp h with rfl | h
      · exact Or.inr (List.mem_cons_self _ _)
      · rcases ih b h with rfl | h2
        · exact Or.inr (List.mem_cons_self _ _)
        · exact Or.inr (List.mem_cons_of_mem _ h2)

theorem mem_compact {x : Int} {l : List Int} : x ∈ compact l ↔ x ∈ l := by
  cases l with
  | nil => simp [compact]
  | cons a rest =>
    rw [compact]
    constructor
    · intro h
      rcases List.mem_cons.mp h with rfl | h
      · exact List.mem_cons_self _ _
      · exact List.mem_cons_of_mem _ (mem_of_mem_compactTail h)
    · intro h
      rcases List.mem_cons.mp h with rfl | h
      · exact List.mem_cons_self _ _
      · rcases mem_compactTail_of_mem a h with rfl | h2
        · exact List.mem_cons_self _ _
        · exact List.mem_cons_of_mem _ h2

theorem compactTail_sorted : ∀ {l : List Int} {prev : Int}, List.Sorted (· ≤ ·) l →
    (∀ y ∈ l, prev ≤ y) →
    List.Sorted (· < ·) (compactTail prev l) ∧ ∀ y ∈ compactTail prev l, prev < y := by
  intro l
  induction l with
  | nil => intro prev _ _; simp [compactTail]
  | cons b rest ih =>
    intro prev hs hlb
    rw [List.sorted_cons] at hs
    obtain ⟨hb_le, hrest⟩ := hs
    by_cases hb : b = prev
    · rw [compactTail, if_pos hb]
      exact ih hrest (fun y hy => hb ▸ hb_le y hy)
    · rw [compactTail, if_neg hb]
      have hpb : prev < b :=
        lt_of_le_of_ne (hlb b (List.mem_cons_self _ _)) (fun h => hb h.symm)
      obtain ⟨hsort, hgt⟩ := ih hrest hb_le
      refine ⟨List.sorted_cons.mpr ⟨hgt, hsort⟩, ?_⟩
      intro y hy
      rcases List.mem_cons.mp hy with rfl | hy
      · exact hpb
      · exact lt_trans hpb (hgt y hy)

theorem compact_sorted {l : List Int} (h : List.Sorted (· ≤ ·) l) :
    List.Sorted (· < ·) (compact l) := by
  cases l with
  | nil => simp [compact]
  | cons a rest =>
    rw [List.sorted_cons] at h
    obtain ⟨ha, hrest⟩ := h
    obtain ⟨hs, hgt⟩ := compactTail_sorted hrest ha
    exact List.sorted_cons.mpr ⟨hgt, hs⟩

theorem foldl_bridgeVLANBlocks (l : List Int) (s : String) :
    l.foldl (fun ret tag => ret ++ "\n[BridgeVLAN]\n" ++ "VLAN=" ++ toString tag ++ "\n") s =
      s ++ bridgeVLANBlocks l := by
  induction l generalizing s with
  | nil => simp [bridgeVLANBlocks]
  | cons t rest ih =>
    rw [List.foldl_cons, ih, bridgeVLANBlocks]
    simp [String.append_assoc]

theorem mem_bridgeVLANTagsRaw {x : Int} (bridgeName : String) (specificVLAN : Int)
    (additionalVLANTags : List Int) (vlans : List SystemNetworkVLAN) :
    x ∈ bridgeVLANTagsRaw bridgeName specificVLAN additionalVLANTags vlans ↔
      (specificVLAN ≠ 0 ∧ x = specificVLAN) ∨ x ∈ additionalVLANTags ∨
        ∃ v ∈ vlans, v.Parent = bridgeName ∧ v.ID = x := by
  unfold bridgeVLANTagsRaw
  by_cases h : specificVLAN = 0 <;>
    simp [h, List.mem_filterMap, and_comm, eq_comm, Option.ite_none_right_eq_some]

theorem onlineLoop_timeout (w : World) (networkCfg : SystemNetworkConfig) (endTime : Nat)
    (hp : ∀ t, onlinePass w networkCfg t = false) :
    ∀ now, (waitForNetworkOnlineLoop w networkCfg endTime now).1 = .error timeoutNetworkMsg ∧
      endTime < (waitForNetworkOnlineLoop w networkCfg endTime now).2 := by
  have H : ∀ n now, endTime + 1 - now ≤ n →
      (waitForNetworkOnlineLoop w networkCfg endTime now).1 = .error timeoutNetworkMsg ∧
        endTime < (waitForNetworkOnlineLoop w networkCfg endTime now).2 := by
    intro n
    induction n with
    | zero =>
      intro now h
      have hlt : endTime < now := by omega
      rw [waitForNetworkOnlineLoop]
      simp [hlt]
    | succ n ih =>
      intro now h
      by_cases hlt : endTime < now
      · rw [waitForNetworkOnlineLoop]
        simp [hlt]
      · rw [waitForNetworkOnlineLoop]
        simp only [hlt, if_false, hp now, Bool.false_eq_true]
        exact ih (now + 500) (by omega)
  exact fun now => H (endTime + 1 - now) now le_rfl

theorem renameLoop_timeout (w : World) (endTime : Nat)
    (htr : ∀ t, ∃ o, w.udevadmTrigger t = .ok o)
    (hse : ∀ t, ∃ o, w.udevadmSettle t = .ok o)
    (hj : ∀ t, ∃ e, w.journalctlRenamed t = .error e) :
    ∀ now, (waitForUdevInterfaceRenameLoop w endTime now).1 = .error timeoutRenameMsg ∧
      endTime < (waitForUdevInterfaceRenameLoop w endTime now).2 := by
  have H : ∀ n now, endTime + 1 - now ≤ n →
      (waitForUdevInterfaceRenameLoop w endTime now).1 = .error timeoutRenameMsg ∧
        endTime < (waitForUdevInterfaceRenameLoop w endTime now).2 := by
    intro n
    induction n with
    | zero =>
      intro now h
      have hlt : endTime < now := by omega
      rw [waitForUdevInterfaceRenameLoop]
      simp [hlt]
    | succ n ih =>
      intro now h
      by_cases hlt : endTime < now
      · rw [waitForUdevInterfaceRenameLoop]
        simp [hlt]
      · obtain ⟨o1, h1⟩ := htr now
        obtain ⟨o2, h2⟩ := hse now
        obtain ⟨e3, h3⟩ := hj now
        rw [waitForUdevInterfaceRenameLoop]
        simp only [hlt, if_false, h1, h2, h3]
        exact ih (now + 500) (by omega)
  exact fun now => H (endTime + 1 - now) now le_rfl

theorem apply_rename_stage_error (w : World) (networkCfg : Option SystemNetworkConfig)
    (now timeout : Nat) (cfg : SystemNetworkConfig) (e : String)
    (hn : networkCfg = some cfg)
    (hv : ValidateNetworkConfiguration networkCfg = .ok ())
    (hhost : w.setHostnameResult (hostnameFromDNS cfg.DNS) = .ok ())
    (hupd : w.updateEnvironmentResult = .ok ())
    (hgen : (generateNetworkConfiguration w cfg).1 = .ok ())
    (hren : (waitForUdevInterfaceRename w now 5000).1 = .error e) :
    (ApplyNetworkConfiguration w networkCfg now timeout).1 = .error e ∧
    (ApplyNetworkConfiguration w networkCfg now timeout).2.2 =
      (waitForUdevInterfaceRename w now 5000).2 := by
  subst hn
  unfold ApplyNetworkConfiguration
  rw [hv]
  simp only [Option.getD_some, hhost, hupd, hgen, hren]
  refine ⟨?_, ?_⟩ <;> trivial

/-! ## Claim theorems -/

/-- C1: for every device, the addressing part of the generated `[Network]`
section ends with `DHCP=yes` when the address list contains both `dhcp4`
and `dhcp6`, `DHCP=ipv4` when it contains only `dhcp4`, `DHCP=ipv6` when it
contains only `dhcp6`, and no DHCP directive when it contains neither
(`dhcpClause` spells out exactly this case split by token membership). -/
theorem processAddresses_dhcp_law (addresses : List String) :
    processAddresses addresses =
      linkLocalClause addresses ++ literalAddressLines addresses ++
        ipv6RAClause addresses ++ dhcpClause addresses ∧
    dhcpClause addresses =
      (if "dhcp4" ∈ addresses ∧ "dhcp6" ∈ addresses then "DHCP=yes\n"
       else if "dhcp4" ∈ addresses then "DHCP=ipv4\n"
       else if "dhcp6" ∈ addresses then "DHCP=ipv6\n"
       else "") := by
  refine ⟨processAddresses_decomp addresses, ?_⟩
  unfold dhcpClause
  by_cases h4 : "dhcp4" ∈ addresses <;> by_cases h6 : "dhcp6" ∈ addresses <;> simp [h4, h6]

/-- C3: for every device, the generated `[Link]` section is exactly the
specification's required-for-online clause, and it reads
`RequiredForOnline=no` exactly when the address list is empty or the policy
is the explicit string `"no"`. -/
theorem generateLinkSection_requiredForOnline_law (addresses : List String) (policy : String) :
    generateLinkSectionContents addresses policy = requiredForOnlineClause addresses policy ∧
    (generateLinkSectionContents addresses policy = "RequiredForOnline=no" ↔
      addresses = [] ∨ policy = "no") := by
  have hyes : ∀ s : String,
      "RequiredForOnline=yes\nRequiredFamilyForOnline=" ++ s ≠ "RequiredForOnline=no" := by
    intro s h
    have h2 := congrArg String.length h
    rw [String.length_append] at h2
    have e1 : "RequiredForOnline=yes\nRequiredFamilyForOnline=".length = 46 := rfl
    have e2 : "RequiredForOnline=no".length = 20 := rfl
    rw [e1, e2] at h2
    omega
  unfold generateLinkSectionContents requiredForOnlineClause
  by_cases h : addresses.length = 0 ∨ policy = "no"
  · have h' : addresses = [] ∨ policy = "no" := by
      rcases h with h | h
      · exact Or.inl (List.length_eq_zero.mp h)
      · exact Or.inr h
    simp [h, h']
  · have h' : ¬(addresses = [] ∨ policy = "no") := by
      rcases not_or.mp h with ⟨h1, h2⟩
      rintro (h3 | h3)
      · exact h1 (by simp [h3])
      · exact h2 h3
    by_cases hp : policy = ""
    · simp [h, h', hp, hyes]
    · simp [h, h', hp, hyes]

/-- C4 counterexample: the address list `["dhcp4"]` contains no literal
address, yet the generated section enables link-local IPv6 addressing
(`LinkLocalAddressing=ipv6`) and does not contain `LinkLocalAddressing=no`
or `ConfigureWithoutCarrier=yes`; the claim keys the directive on literal
addresses, the code keys it on non-emptiness of the address list. -/
theorem processAddresses_linkLocal_cex :
    processAddresses ["dhcp4"] = "LinkLocalAddressing=ipv6\nIPv6AcceptRA=false\nDHCP=ipv4\n" ∧
    strContains (processAddresses ["dhcp4"]) "LinkLocalAddressing=no" = false ∧
    strContains (processAddresses ["dhcp4"]) "ConfigureWithoutCarrier=yes" = false := by
  refine ⟨rfl, rfl, rfl⟩

/-- C4 amended: `LinkLocalAddressing=ipv6` is emitted exactly when the
address list is non-empty (whether or not any literal address is present);
only for an empty list does the generator emit `LinkLocalAddressing=no`
together with `ConfigureWithoutCarrier=yes`. -/
theorem processAddresses_linkLocal_law (addresses : List String) :
    processAddresses addresses =
      (if addresses = [] then "LinkLocalAddressing=no\n" ++ "ConfigureWithoutCarrier=yes\n"
       else "LinkLocalAddressing=ipv6\n") ++
        (literalAddressLines addresses ++ (ipv6RAClause addresses ++ dhcpClause addresses)) := by
  rw [processAddresses_decomp]
  unfold linkLocalClause
  by_cases h : addresses = []
  · simp [h, String.append_assoc]
  · simp [h, String.append_assoc]

/-- C2: the emitted `[BridgeVLAN]` tag sequence is the strictly ascending
(hence duplicate-free) union of the device's primary VLAN tag, its trunk
tag list, and the IDs of declared VLANs whose Parent is the device; when a
primary tag is set the sequence is preceded by a PVID/EgressUntagged block
for it. -/
theorem bridgeVLAN_aggregation_law (bridgeName : String) (specificVLAN : Int)
    (additionalVLANTags : List Int) (vlans : List SystemNetworkVLAN) :
    List.Sorted (· < ·) (bridgeVLANTags bridgeName specificVLAN additionalVLANTags vlans) ∧
    (∀ x : Int, x ∈ bridgeVLANTags bridgeName specificVLAN additionalVLANTags vlans ↔
      (specificVLAN ≠ 0 ∧ x = specificVLAN) ∨ x ∈ additionalVLANTags ∨
        ∃ v ∈ vlans, v.Parent = bridgeName ∧ v.ID = x) ∧
    generateBridgeVLANContents bridgeName specificVLAN additionalVLANTags vlans =
      (if bridgeVLANTags bridgeName specificVLAN additionalVLANTags vlans = [] then ""
       else pvidClause specificVLAN ++
         bridgeVLANBlocks (bridgeVLANTags bridgeName specificVLAN additionalVLANTags vlans)) := by
  refine ⟨?_, ?_, ?_⟩
  · exact compact_sorted (List.sorted_insertionSort _ _)
  · intro x
    rw [bridgeVLANTags, mem_compact, List.mem_insertionSort, mem_bridgeVLANTagsRaw]
  · rw [generateBridgeVLANContents, pvidClause]
    by_cases h : bridgeVLANTags bridgeName specificVLAN additionalVLANTags vlans = []
    · simp [h]
    · have hlen : (bridgeVLANTags bridgeName specificVLAN additionalVLANTags vlans).length > 0 :=
        List.length_pos.mpr h
      simp only [hlen, if_true, h, if_false, foldl_bridgeVLANBlocks]

/-- C8: for every bond in the configuration, the generated veth netdev
artifact for the bond carries `MACAddress=` the bond's own hardware address
when it is set, and the first member's hardware address when it is unset. -/
theorem bond_veth_mac_law (networkCfg : SystemNetworkConfig) (b : SystemNetworkBond)
    (hb : b ∈ networkCfg.Bonds) :
    ({ Name := "11-" ++ b.Name ++ ".netdev"
       Contents := "[NetDev]\nName=" ++ b.Name ++ "\nKind=veth\nMACAddress=" ++
         (if b.Hwaddr = "" then b.Members.headD "" else b.Hwaddr) ++
         "\n" ++ mtuClause b.MTU ++ "\n\n[Peer]\nName=vt" ++ b.Name ++ "\n" } : networkdConfigFile)
      ∈ generateNetdevFileContents networkCfg := by
  unfold generateNetdevFileContents
  apply List.mem_append_left
  apply List.mem_append_right
  apply List.mem_flatMap.mpr
  exact ⟨b, hb, by simp⟩

/-- Witness for C8: the veth netdev artifact generated for `bond0` (no
explicit hardware address, two members) carries the first member's
address. -/
theorem bond_veth_mac_witness :
    ({ Name := "11-bond0.netdev"
       Contents := "[NetDev]\nName=bond0\nKind=veth\nMACAddress=aa:bb:cc:dd:ee:01\n\n\n[Peer]\nName=vtbond0\n" } :
        networkdConfigFile)
      ∈ generateNetdevFileContents cfgBond :=
  bond_veth_mac_law cfgBond bond0 (List.mem_cons_self _ _)

/-- C10: for every request to the system action endpoint whose method is
not PUT, the handler renders NotImplemented and performs no action at all:
the body is not decoded and neither trigger channel is closed. -/
theorem apiSystem_non_put (method : String) (body : Except String String)
    (h : method ≠ "PUT") :
    apiSystem method body = (.notImplemented, []) := by
  simp [apiSystem, h]

/-- Witness for C10 at method GET. -/
theorem apiSystem_non_put_witness :
    apiSystem "GET" (.ok "reboot") = (.notImplemented, []) :=
  apiSystem_non_put "GET" (.ok "reboot") (by decide)

/-- C7: if some device in the checked set never satisfies the online
condition, the online wait returns the dedicated timeout error, and only
strictly after the configured deadline, never before. -/
theorem online_wait_timeout_law (w : World) (networkCfg : SystemNetworkConfig)
    (now timeout : Nat) (d : String) (hd : d ∈ devicesToCheck networkCfg)
    (hnever : ∀ t, deviceConverged w t d = false) :
    (waitForNetworkOnline w networkCfg now timeout).1 = .error timeoutNetworkMsg ∧
    now + timeout < (waitForNetworkOnline w networkCfg now timeout).2 := by
  have hp : ∀ t, onlinePass w networkCfg t = false := by
    intro t
    simp only [onlinePass, List.all_eq_false]
    exact ⟨d, hd, by simp [hnever t]⟩
  exact onlineLoop_timeout w networkCfg (now + timeout) hp now

/-- Witness for C7: with a device that is required for online but never
online, a 1000 ms online wait times out after the deadline. -/
theorem online_wait_timeout_witness :
    (waitForNetworkOnline neverOnlineWorld cfg0 0 1000).1 = .error timeoutNetworkMsg ∧
    1000 < (waitForNetworkOnline neverOnlineWorld cfg0 0 1000).2 := by
  have h := online_wait_timeout_law neverOnlineWorld cfg0 0 1000 "eth0" (by decide)
    (fun _ => rfl)
  simpa using h

/-- C5 counterexample: with every `networkctl status` and `ip address show`
invocation failing with "exit status 1", the online wait still polls past
the deadline and then returns the generic timeout error, not a wrapped
command error: the status-query failure is absorbed by the loop, not
propagated as a fatal error. -/
theorem networkctl_failure_not_propagated_cex :
    (waitForNetworkOnline failingStatusWorld cfg0 0 1000).1 = .error timeoutNetworkMsg ∧
    1000 < (waitForNetworkOnline failingStatusWorld cfg0 0 1000).2 ∧
    (∀ t name, failingStatusWorld.networkctlStatus t name = .error "exit status 1") ∧
    timeoutNetworkMsg ≠ "exit status 1" := by
  have hp : ∀ t, onlinePass failingStatusWorld cfg0 t = false := fun _ => rfl
  have h := onlineLoop_timeout failingStatusWorld cfg0 1000 hp 0
  exact ⟨h.1, h.2, fun _ _ => rfl, by decide⟩

/-- C5 amended: a failure of a status query for a checked device is
absorbed by the polling loop — the device merely counts as
required-but-not-online — and the loop keeps polling until the deadline
elapses, after which it reports the generic timeout error. -/
theorem networkctl_failure_absorbed (w : World) (networkCfg : SystemNetworkConfig)
    (now timeout : Nat) (d : String) (hd : d ∈ devicesToCheck networkCfg)
    (hfail : ∀ t, ∃ e, w.networkctlStatus t d = .error e) :
    (waitForNetworkOnline w networkCfg now timeout).1 = .error timeoutNetworkMsg ∧
    now + timeout < (waitForNetworkOnline w networkCfg now timeout).2 := by
  have hconv : ∀ t, deviceConverged w t d = false := by
    intro t
    obtain ⟨e, he⟩ := hfail t
    simp [deviceConverged, isOnline, he]
  have hp : ∀ t, onlinePass w networkCfg t = false := by
    intro t
    simp only [onlinePass, List.all_eq_false]
    exact ⟨d, hd, by simp [hconv t]⟩
  exact onlineLoop_timeout w networkCfg (now + timeout) hp now

/-- Witness for C5 (amended) at the failing-status world. -/
theorem networkctl_failure_absorbed_witness :
    (waitForNetworkOnline failingStatusWorld cfg0 0 1000).1 = .error timeoutNetworkMsg ∧
    1000 < (waitForNetworkOnline failingStatusWorld cfg0 0 1000).2 := by
  have h := networkctl_failure_absorbed failingStatusWorld cfg0 0 1000 "eth0" (by decide)
    (fun _ => ⟨"exit status 1", rfl⟩)
  simpa using h

/-- C6 counterexample. First conjuncts: with a zero timeout and a world
whose very first polling pass finds the rename evidence, the rename wait
performs that pass and returns success — it neither fails immediately nor
returns a timeout error, contradicting the claim that a zero timeout fails
immediately without a polling pass. Last conjuncts: with rename evidence
never appearing and an apply timeout of 1000000 ms, the apply pipeline
returns the rename timeout error already at 5500 ms — the rename wait is
bounded by its fixed 5-second budget, not by the caller-supplied timeout
of the apply request. -/
theorem rename_zero_timeout_cex :
    waitForUdevInterfaceRename okWorld 0 0 = (.ok (), 0) ∧
    (waitForUdevInterfaceRename okWorld 0 0).1 ≠ .error timeoutRenameMsg ∧
    (ApplyNetworkConfiguration renameNeverWorld (some cfg0) 0 1000000).1 =
      .error timeoutRenameMsg ∧
    (ApplyNetworkConfiguration renameNeverWorld (some cfg0) 0 1000000).2.2 = 5500 := by
  have h : waitForUdevInterfaceRename okWorld 0 0 = (.ok (), 0) := by
    rw [waitForUdevInterfaceRename, waitForUdevInterfaceRenameLoop]
    simp [okWorld]
  have hrename : waitForUdevInterfaceRename renameNeverWorld 0 5000 =
      (.error timeoutRenameMsg, 5500) := by
    simp [waitForUdevInterfaceRename, waitForUdevInterfaceRenameLoop, renameNeverWorld, okWorld]
  obtain ⟨h1, h2⟩ := apply_rename_stage_error renameNeverWorld (some cfg0) 0 1000000 cfg0
    timeoutRenameMsg rfl rfl rfl rfl rfl (by rw [hrename])
  refine ⟨h, ?_, h1, ?_⟩
  · rw [h]
    simp
  · rw [h2, hrename]

/-- C6 amended: each loop checks its deadline before every polling pass,
but time advances only at sleeps, so a zero (or already-expired) timeout
still performs exactly one polling pass: the loop succeeds if that pass
satisfies the condition and otherwise fails with its timeout error after
the first sleep. Moreover the rename wait inside the apply pipeline runs
on a fixed 5-second budget, not the caller-supplied timeout of the apply
request: with rename evidence never appearing, the apply fails with the
rename timeout error even though its own timeout budget is far larger. -/
theorem polling_zero_timeout_law :
    (∀ (w : World) (now : Nat),
      waitForUdevInterfaceRename w now 0 =
        match w.udevadmTrigger now with
        | .error e => (.error e, now)
        | .ok _ =>
          match w.udevadmSettle now with
          | .error e => (.error e, now)
          | .ok _ =>
            match w.journalctlRenamed now with
            | .ok _ => (.ok (), now)
            | .error _ => (.error timeoutRenameMsg, now + 500)) ∧
    (∀ (w : World) (networkCfg : SystemNetworkConfig) (now : Nat),
      waitForNetworkOnline w networkCfg now 0 =
        if onlinePass w networkCfg now then (.ok (), now)
        else (.error timeoutNetworkMsg, now + 500)) ∧
    (ApplyNetworkConfiguration renameNeverWorld (some cfg0) 0 1000000).1 =
      .error timeoutRenameMsg := by
  refine ⟨?_, ?_, ?_⟩
  · intro w now
    rw [waitForUdevInterfaceRename]
    rw [waitForUdevInterfaceRenameLoop]
    simp only [Nat.add_zero, lt_self_iff_false, if_false]
    cases htr : w.udevadmTrigger now with
    | error e => simp
    | ok o =>
      cases hse : w.udevadmSettle now with
      | error e => simp
      | ok o2 =>
        cases hj : w.journalctlRenamed now with
        | ok o3 => simp
        | error e3 =>
          simp only []
          rw [waitForUdevInterfaceRenameLoop]
          simp
  · intro w networkCfg now
    rw [waitForNetworkOnline]
    rw [waitForNetworkOnlineLoop]
    simp only [Nat.add_zero, lt_self_iff_false, if_false]
    by_cases hp : onlinePass w networkCfg now
    · simp [hp]
    · simp only [hp, Bool.false_eq_true, if_false]
      rw [waitForNetworkOnlineLoop]
      simp
  · have hrename : waitForUdevInterfaceRename renameNeverWorld 0 5000 =
        (.error timeoutRenameMsg, 5500) := by
      simp [waitForUdevInterfaceRename, waitForUdevInterfaceRenameLoop, renameNeverWorld, okWorld]
    exact (apply_rename_stage_error renameNeverWorld (some cfg0) 0 1000000 cfg0 timeoutRenameMsg
      rfl rfl rfl rfl rfl (by rw [hrename])).1

/-- C9: whenever validation of the supplied configuration fails, the apply
pipeline returns that validation error with an empty effect trace and no
time elapsed: no hostname change, no proxy environment update, no file or
directory operation, and no service restart happens. -/
theorem apply_validation_error_no_effects (w : World) (networkCfg : Option SystemNetworkConfig)
    (now timeout : Nat) (e : String)
    (h : ValidateNetworkConfiguration networkCfg = .error e) :
    ApplyNetworkConfiguration w networkCfg now timeout = (.error e, [], now) := by
  unfold ApplyNetworkConfiguration
  rw [h]

/-- Witness for C9: applying a nil configuration fails validation and
performs no side effect. -/
theorem apply_validation_error_witness :
    ApplyNetworkConfiguration okWorld none 0 1000 =
      (.error "no network configuration provided", [], 0) :=
  apply_validation_error_no_effects okWorld none 0 1000 "no network configuration provided" rfl

end IncusOS
